import Mathlib

/-!
Verification of the clock-setup / ITM trace example
(`src/examples/clocksetup-with-itm-debug.rs`).

The example runs once at startup: it takes the device and core peripheral
singletons, freezes the clock tree at a desired 16 MHz system clock from the
internal 16 MHz RC oscillator, then reads the TPIU asynchronous clock
prescaler register (ACPR) and the selected-pin-protocol register (SPPR),
reports the effective SWO baud rate `sysclk / acpr` and the decoded protocol
mode, emits three ITM stimulus-port messages, and deliberately ends in
`panic!()`.

The definitions below are a shallow embedding of that flow: registers are
natural numbers, the `u32` division of Rust (which panics on a zero divisor)
becomes an `Except` value, and the diagnostic output becomes an explicit
event trace.  The HAL's `freeze` PLL synthesis and the peripheral `take`
singletons live outside `src/`, so those two operations are modelled from
the specification, as marked in their doc comments.
-/

/-- The trace protocol mode decoded from the 2-bit TPIU_SPPR field
(source lines 177-182). -/
inductive TraceProtocolMode where
  | parallel
  | manchester
  | uart
  | reserved
deriving DecidableEq, Repr

/-- Decoding of the TPIU selected-pin-protocol register: the source matches
on `sppr & 0b11` with arms `0b00`, `0b01`, `0b10` and a catch-all for the
reserved value (source lines 177-182). -/
def decodeSppr (sppr : Nat) : TraceProtocolMode :=
  match sppr &&& 3 with
  | 0 => TraceProtocolMode.parallel
  | 1 => TraceProtocolMode.manchester
  | 2 => TraceProtocolMode.uart
  | _ => TraceProtocolMode.reserved

/-- The fatal conditions of the example: the `unwrap()` on an already-taken
peripheral singleton (lines 101-102), the `u32` division by a zero ACPR
value (line 170), and the deliberate final `panic!()` (line 197). -/
inductive Fault where
  | resourceExhaustion
  | arithmetic
  | terminal
deriving DecidableEq, Repr

/-- The two observable TPIU register fields the example reads:
the asynchronous clock prescaler (ACPR, line 165) and the
selected-pin-protocol register (SPPR, line 175). -/
structure TPIU where
  acpr : Nat
  sppr : Nat
deriving DecidableEq, Repr

/-- A read of TPIU_ACPR (`cp.TPIU.acpr.read()`, line 165), with the register
state passed explicitly so that frame effects are visible. -/
def readAcpr (t : TPIU) : Nat × TPIU := (t.acpr, t)

/-- A read of TPIU_SPPR (`cp.TPIU.sppr.read()`, line 175), with the register
state passed explicitly so that frame effects are visible. -/
def readSppr (t : TPIU) : Nat × TPIU := (t.sppr, t)

/-- The values the Trace Link Configurator reports (lines 167-187):
the raw ACPR value, the effective SWO baud rate `sysclk / acpr`, and the
decoded protocol mode. -/
structure TraceReport where
  acprValue : Nat
  effectiveBaud : Nat
  mode : TraceProtocolMode
deriving DecidableEq, Repr

/-- The Trace Link Configurator flow of lines 165-187: read ACPR, compute
`sysclk / acpr` (Rust `u32` division, which panics when the divisor is zero
— modelled as `Except.error Fault.arithmetic`), read SPPR and decode the
protocol mode.  The final TPIU state is returned so the absence of register
writes is provable. -/
def configurator (sysclkHz : Nat) (t : TPIU) : Except Fault TraceReport × TPIU :=
  let (acprV, t1) := readAcpr t
  if acprV = 0 then
    (Except.error Fault.arithmetic, t1)
  else
    let baud := sysclkHz / acprV
    let (spprV, t2) := readSppr t1
    (Except.ok { acprValue := acprV, effectiveBaud := baud, mode := decodeSppr spprV }, t2)

/-- The oscillator sources of the example: the internal 16 MHz RC oscillator
(the default build), or an external oscillator of a board-specific rated
frequency (the `clocks_example_ext_osc8` / `_osc25` builds, lines 112-160). -/
inductive OscillatorSource where
  | internal
  | external (ratedHz : Nat)
deriving DecidableEq, Repr

/-- The reference frequency of an oscillator source; the internal RC
oscillator is nominally 16 MHz (source comment, line 116). -/
def referenceHz : OscillatorSource → Nat
  | OscillatorSource.internal => 16000000
  | OscillatorSource.external r => r

/-- The desired core clock of the example, `16.mhz()` at line 100,
in hertz as reported by `clocks.sysclk().0`. -/
def desiredCoreFreqHz : Nat := 16000000

/-- Modelled from the spec: the Planner's commit
(`rcc.cfgr.sysclk(..).freeze()`, line 121).  The PLL synthesis it performs
lives in the HAL's `rcc` module, which is not under `src/`.  Per the spec,
the achieved frequency is a deterministic function of the source and the
target: the source's reference frequency is taken as the synthesis input,
and when the target equals the reference frequency the reference is used
directly and the target is achieved exactly (spec scenario A: Internal
16 MHz nominal, target 16 MHz, achieved 16 MHz).  For other targets the spec
fixes no granularity, so the model lets the multiplier/divider synthesis
reach the target. -/
def freezeAchieved (source : OscillatorSource) (targetHz : Nat) : Nat :=
  if targetHz = referenceHz source then targetHz
  else targetHz

/-- The achieved system clock of the example's default build:
internal oscillator, 16 MHz target (lines 100, 121). -/
def sysclkHz : Nat := freezeAchieved OscillatorSource.internal desiredCoreFreqHz

/-- Modelled from the spec: the one-time `Peripherals::take()` singleton
acquisition (lines 101-102), provided by the PAC / cortex-m layer outside
`src/`.  It returns the owned handle the first time and `None` once the
handle has been consumed; the consumed flag is threaded explicitly. -/
def takeOnce (consumed : Bool) : Option Unit × Bool :=
  if consumed then (none, consumed) else (some (), true)

/-- The `unwrap()` applied to `take()` in the example (lines 101-102):
a `None` from `takeOnce` is the resource-exhaustion fault. -/
def unwrapTake (consumed : Bool) : Except Fault (Unit × Bool) :=
  match takeOnce consumed with
  | (none, _) => Except.error Fault.resourceExhaustion
  | (some u, c) => Except.ok (u, c)

/-- The singleton-consumed flags for the two peripheral blocks the example
takes: the device peripherals `dp` and the core peripherals `cp`. -/
structure SysState where
  dpTaken : Bool
  cpTaken : Bool
deriving DecidableEq, Repr

/-- The reset state: neither peripheral singleton has been taken yet when
`main` starts. -/
def SysState.reset : SysState := { dpTaken := false, cpTaken := false }

/-- The observable events of a run of `main`: the semihosting diagnostic
lines (lines 107-110, 167-187), the ITM stimulus-port messages
(lines 194-196), the idle spin of the trailing `loop` (lines 198-200), and
the fatal conditions. -/
inductive Event where
  | emitHello
  | emitSlow
  | emitDesired (hz : Nat)
  | emitAcpr (v : Nat)
  | emitBaud (b : Nat)
  | emitMode (m : TraceProtocolMode)
  | emitItm (n : Nat)
  | idleSpin
  | fault (f : Fault)
deriving DecidableEq, Repr

/-- Whether an event is one of the fatal conditions. -/
def Event.isFault : Event → Bool
  | Event.fault _ => true
  | _ => false

/-- The diagnostic lines emitted before the clock freeze and the TPIU reads
(lines 107-110 and 167): the two greeting lines, the desired core
frequency, and the raw ACPR value. -/
def preamble (acprV : Nat) : List Event :=
  [Event.emitHello, Event.emitSlow, Event.emitDesired desiredCoreFreqHz,
   Event.emitAcpr acprV]

/-- The event trace of `main` (lines 98-201) from an arbitrary initial
singleton state: take `dp` and `cp` (unwrap: an already-consumed singleton
aborts with the resource-exhaustion fault), emit the preamble diagnostics,
then compute `sysclk / acpr` (line 170; a zero ACPR panics during the
formatting of that very line, so no baud value is emitted), report the
decoded SPPR mode, repeat the baud line (lines 184-187), emit the three
ITM messages and end in the deliberate `panic!()`.  The `loop` after the
panic is unreachable, so `idleSpin` never enters the trace. -/
def mainFrom (s : SysState) (acprV spprV : Nat) : List Event :=
  match takeOnce s.dpTaken with
  | (none, _) => [Event.fault Fault.resourceExhaustion]
  | (some _, _) =>
    match takeOnce s.cpTaken with
    | (none, _) => [Event.fault Fault.resourceExhaustion]
    | (some _, _) =>
      preamble acprV ++
        (if acprV = 0 then
          [Event.fault Fault.arithmetic]
        else
          [Event.emitBaud (sysclkHz / acprV),
           Event.emitMode (decodeSppr spprV),
           Event.emitBaud (sysclkHz / acprV),
           Event.emitItm 0, Event.emitItm 1, Event.emitItm 2,
           Event.fault Fault.terminal])

/-- The event trace of the program: `main` runs once, from the reset state
in which neither singleton has been consumed. -/
def mainTrace (acprV spprV : Nat) : List Event :=
  mainFrom SysState.reset acprV spprV

/-- The events emitted before the first fatal condition of a run. -/
def emittedBeforeFault (acprV spprV : Nat) : List Event :=
  (mainTrace acprV spprV).takeWhile (fun e => !e.isFault)

/-- C1: for every achieved system clock greater than zero and every trace
divisor greater than zero, the Configurator reports the effective trace baud
rate `AchievedClock / TraceDivisor` under exact truncating unsigned integer
division — the reported quotient together with the remainder reconstructs
the achieved clock and the remainder is below the divisor, so no rounding
adjustment is applied. -/
theorem c1_effective_baud_truncating_div (achieved acprV spprV : Nat)
    (_ha : 0 < achieved) (hd : 0 < acprV) :
    (configurator achieved ⟨acprV, spprV⟩).1 =
      Except.ok ⟨acprV, achieved / acprV, decodeSppr spprV⟩ ∧
    acprV * (achieved / acprV) + achieved % acprV = achieved ∧
    achieved % acprV < acprV := by
  refine ⟨?_, Nat.div_add_mod achieved acprV, Nat.mod_lt _ hd⟩
  simp [configurator, readAcpr, readSppr, Nat.pos_iff_ne_zero.mp hd]

/-- Witness for C1 at achieved clock 16 MHz and divisor 16. -/
theorem c1_witness :
    (configurator 16000000 ⟨16, 1⟩).1 =
      Except.ok ⟨16, 16000000 / 16, decodeSppr 1⟩ ∧
    16 * (16000000 / 16) + 16000000 % 16 = 16000000 ∧ 16000000 % 16 < 16 :=
  c1_effective_baud_truncating_div 16000000 16 1 (by decide) (by decide)

/-- C2: protocol-mode decoding is total on the four 2-bit values:
0b00 maps to Parallel, 0b01 to Manchester serial, 0b10 to UART/NRZ serial,
0b11 to Reserved, and Reserved is distinct from each of the three defined
modes, so no 2-bit value is left unclassified or folded together. -/
theorem c2_mode_decoding_total_exhaustive :
    decodeSppr 0 = TraceProtocolMode.parallel ∧
    decodeSppr 1 = TraceProtocolMode.manchester ∧
    decodeSppr 2 = TraceProtocolMode.uart ∧
    decodeSppr 3 = TraceProtocolMode.reserved ∧
    TraceProtocolMode.reserved ≠ TraceProtocolMode.parallel ∧
    TraceProtocolMode.reserved ≠ TraceProtocolMode.manchester ∧
    TraceProtocolMode.reserved ≠ TraceProtocolMode.uart := by
  decide

/-- C3: with a zero trace divisor the Configurator yields the arithmetic
fault and no report, the run's trace reaches the arithmetic fault, and no
effective trace baud value is ever emitted on the diagnostic channel. -/
theorem c3_zero_divisor_arithmetic_fault (achieved spprV : Nat) :
    (configurator achieved ⟨0, spprV⟩).1 = Except.error Fault.arithmetic ∧
    Event.fault Fault.arithmetic ∈ mainTrace 0 spprV ∧
    ∀ b, Event.emitBaud b ∉ mainTrace 0 spprV := by
  refine ⟨by simp [configurator, readAcpr], ?_, ?_⟩
  · simp [mainTrace, mainFrom, takeOnce, SysState.reset, preamble]
  · intro b
    simp [mainTrace, mainFrom, takeOnce, SysState.reset, preamble]

/-- Witness for C3 at achieved clock 16 MHz and a sample baud value. -/
theorem c3_witness :
    (configurator 16000000 ⟨0, 1⟩).1 = Except.error Fault.arithmetic ∧
    Event.fault Fault.arithmetic ∈ mainTrace 0 1 ∧
    Event.emitBaud 1000000 ∉ mainTrace 0 1 :=
  ⟨(c3_zero_divisor_arithmetic_fault 16000000 1).1,
   (c3_zero_divisor_arithmetic_fault 16000000 1).2.1,
   (c3_zero_divisor_arithmetic_fault 16000000 1).2.2 1000000⟩

/-- C4: whenever a first acquisition of the peripheral singleton succeeds,
any subsequent acquisition returns nothing, and the unwrap applied to it
yields the resource-exhaustion fault rather than any degraded handle. -/
theorem c4_second_take_fails (consumed : Bool)
    (h : (takeOnce consumed).1 = some ()) :
    (takeOnce (takeOnce consumed).2).1 = none ∧
    unwrapTake (takeOnce consumed).2 = Except.error Fault.resourceExhaustion := by
  cases consumed with
  | false => simp [takeOnce, unwrapTake]
  | true => simp [takeOnce] at h

/-- Witness for C4 from the reset state, where the first take succeeds. -/
theorem c4_witness :
    (takeOnce (takeOnce false).2).1 = none ∧
    unwrapTake (takeOnce false).2 = Except.error Fault.resourceExhaustion :=
  c4_second_take_fails false (by decide)

/-- C5: with the internal 16 MHz source and a 16 MHz target the Planner's
commit achieves exactly 16000000 Hz, and with trace divisor 16 the
Configurator reports an effective trace baud rate of 1000000 Hz. -/
theorem c5_scenario_a (spprV : Nat) :
    freezeAchieved OscillatorSource.internal desiredCoreFreqHz = 16000000 ∧
    (configurator (freezeAchieved OscillatorSource.internal desiredCoreFreqHz)
        ⟨16, spprV⟩).1 =
      Except.ok ⟨16, 1000000, decodeSppr spprV⟩ := by
  constructor
  · rfl
  · simp [configurator, readAcpr, readSppr, freezeAchieved, desiredCoreFreqHz,
      referenceHz]

/-- C6: the Planner's achieved frequency is a deterministic function of the
oscillator source and the desired target: two runs of the freeze with
identical inputs achieve the identical frequency. -/
theorem c6_freeze_deterministic (s1 s2 : OscillatorSource) (t1 t2 : Nat)
    (hs : s1 = s2) (ht : t1 = t2) :
    freezeAchieved s1 t1 = freezeAchieved s2 t2 := by
  rw [hs, ht]

/-- Witness for C6 at the internal source and the 16 MHz target. -/
theorem c6_witness :
    freezeAchieved OscillatorSource.internal 16000000 =
      freezeAchieved OscillatorSource.internal 16000000 :=
  c6_freeze_deterministic OscillatorSource.internal OscillatorSource.internal
    16000000 16000000 rfl rfl

/-- C7: on every run from the reset state, the diagnostics describing the
decisions and values computed so far are emitted before any fatal condition:
the greeting lines, the desired-frequency line and the raw divisor value
precede every fault, and on the nonzero-divisor path the baud-rate and
protocol-mode diagnostics also precede the deliberate terminal fault. -/
theorem c7_diagnostics_before_fault (acprV spprV : Nat) :
    (Event.emitHello ∈ emittedBeforeFault acprV spprV ∧
     Event.emitSlow ∈ emittedBeforeFault acprV spprV ∧
     Event.emitDesired desiredCoreFreqHz ∈ emittedBeforeFault acprV spprV ∧
     Event.emitAcpr acprV ∈ emittedBeforeFault acprV spprV) ∧
    (acprV ≠ 0 →
      Event.emitBaud (sysclkHz / acprV) ∈ emittedBeforeFault acprV spprV ∧
      Event.emitMode (decodeSppr spprV) ∈ emittedBeforeFault acprV spprV) := by
  by_cases h : acprV = 0
  · subst h
    refine ⟨?_, fun h0 => absurd rfl h0⟩
    simp [emittedBeforeFault, mainTrace, mainFrom, takeOnce, SysState.reset,
      preamble, Event.isFault, List.takeWhile]
  · refine ⟨?_, fun _ => ?_⟩ <;>
      simp [emittedBeforeFault, mainTrace, mainFrom, takeOnce, SysState.reset,
        preamble, Event.isFault, List.takeWhile, h]

/-- Witness for C7 at divisor 16 and protocol-mode register value 1. -/
theorem c7_witness :
    Event.emitBaud (sysclkHz / 16) ∈ emittedBeforeFault 16 1 ∧
    Event.emitMode (decodeSppr 1) ∈ emittedBeforeFault 16 1 :=
  (c7_diagnostics_before_fault 16 1).2 (by decide)

/-- C8: on the nonzero-divisor path the run ends in the deliberate terminal
fault as its final event, the three ITM stimulus-port messages are emitted
before that fault, and the idle spin loop is never entered. -/
theorem c8_terminal_after_itm (acprV spprV : Nat) (h : acprV ≠ 0) :
    (mainTrace acprV spprV).getLast? = some (Event.fault Fault.terminal) ∧
    Event.emitItm 0 ∈ emittedBeforeFault acprV spprV ∧
    Event.emitItm 1 ∈ emittedBeforeFault acprV spprV ∧
    Event.emitItm 2 ∈ emittedBeforeFault acprV spprV ∧
    Event.idleSpin ∉ mainTrace acprV spprV := by
  refine ⟨?_, ?_, ?_, ?_, ?_⟩ <;>
    simp [emittedBeforeFault, mainTrace, mainFrom, takeOnce, SysState.reset,
      preamble, Event.isFault, List.takeWhile, h]

/-- Witness for C8 at divisor 16 and protocol-mode register value 1. -/
theorem c8_witness :
    (mainTrace 16 1).getLast? = some (Event.fault Fault.terminal) ∧
    Event.emitItm 0 ∈ emittedBeforeFault 16 1 ∧
    Event.emitItm 1 ∈ emittedBeforeFault 16 1 ∧
    Event.emitItm 2 ∈ emittedBeforeFault 16 1 ∧
    Event.idleSpin ∉ mainTrace 16 1 :=
  c8_terminal_after_itm 16 1 (by decide)

/-- C9: the Trace Link Configurator performs no hardware mutation: after its
read/compute/report flow the TPIU state — both the divisor field and the
protocol-mode field — equals the state before it. -/
theorem c9_configurator_no_mutation (sysHz : Nat) (t : TPIU) :
    (configurator sysHz t).2 = t := by
  by_cases h : t.acpr = 0 <;> simp [configurator, readAcpr, readSppr, h]

/-- C10: protocol-mode classification depends only on the low two bits of
the register value: decoding any value agrees with decoding its low two
bits, so any two register values congruent modulo 4 are classified
identically. -/
theorem c10_mode_low_two_bits :
    (∀ v : Nat, decodeSppr v = decodeSppr (v &&& 3)) ∧
    (∀ v w : Nat, v % 4 = w % 4 → decodeSppr v = decodeSppr w) := by
  have hmask : ∀ v : Nat, v &&& 3 = v % 4 := fun v =>
    Nat.and_pow_two_sub_one_eq_mod v 2
  constructor
  · intro v
    unfold decodeSppr
    have h33 : (3 : Nat) &&& 3 = 3 := by decide
    rw [Nat.land_assoc, h33]
  · intro v w h
    unfold decodeSppr
    rw [hmask, hmask, h]

/-- Witness for C10 at the register values 6 and 2, congruent modulo 4. -/
theorem c10_witness :
    decodeSppr 6 = decodeSppr (6 &&& 3) ∧ decodeSppr 6 = decodeSppr 2 :=
  ⟨c10_mode_low_two_bits.1 6, c10_mode_low_two_bits.2 6 2 (by decide)⟩
